import Mathlib

/-
Verification of the malamar dependency-injection container (src/malamar/_core.py)
against its natural-language specification.

Shallow embedding conventions:
* Python type objects are identified by a `TypeId` (a natural number); the
  issubclass / isinstance backbone of the Python type lattice is an input
  relation `sub : TypeId → TypeId → Bool`.
* Python object identity is modelled by allocation order: the application state
  carries `nextId`, and every `cls(*args, **kwargs)` construction in
  `Application._create_instance` allocates a fresh id.
* Python dicts are association lists (`lookupKey` / `insertKey`, which
  overwrites in place like `d[k] = v`).
* Exceptions are `Except Err`; each `Err` constructor mirrors one `raise` in
  the source and carries exactly the data interpolated into its message.
* The awaited work inside `Application.start` / `Application.stop` (the
  `asyncio.gather` fan-in over the services' start/stop coroutines, optionally
  under `asyncio.wait_for`) is an oracle input: it either completes, times out,
  or raises the first service exception. The flag updates around it are
  modelled exactly as in the source.
* The recursion of `_create_instance` through `_resolve_dependencies` and back
  is tied with an explicit recursion budget `fuel` bounding the nesting depth
  of `_create_instance` calls; any budget at least the dependency-graph depth
  computes the Python behaviour.
-/

namespace Malamar

/-- Identity of a Python type object (a class used as a registry key). -/
abbrev TypeId := Nat

/-- A Python object: its allocation identity and its runtime class. -/
structure Obj where
  id : Nat
  cls : TypeId
deriving DecidableEq

/-- One constructor-parameter descriptor as produced by `_get_dependencies`
(_core.py 27-58): `name` is the parameter name when it is keyword-only (then
the resolved value is passed by name), `ty` the annotated type after
`_get_optional_type` unwrapping, and `required` the FIRST component of the
`_get_optional_type` result, which is true exactly when the annotation was an
optional (nullable) type: the binding
`required, type = _get_optional_type(annotations[parameter.name])`
(_core.py 50) assigns the is-optional flag to `required`, inverting the
evident intent — see `paramDep`. -/
structure Dep where
  name : Option String
  ty : TypeId
  required : Bool
deriving DecidableEq

/-- A Python class as the container sees it: its own type identity (the class
object used as a dict key) and its constructor's dependency descriptors. -/
structure PyClass where
  cls : TypeId
  deps : List Dep
deriving DecidableEq

/-- One constructor parameter as seen by `inspect.signature` together with
`get_type_hints` (self already skipped, annotation present): its name, whether
it is keyword-only, and its annotation, modelled as the pair
`_get_optional_type` (_utils.py 49-77) computes from it — `isOptionalAnn` true
with the unwrapped inner type for an `Optional`/nullable union annotation,
false with the annotation itself for a plain one. -/
structure Param where
  name : String
  keywordOnly : Bool
  isOptionalAnn : Bool
  ty : TypeId
deriving DecidableEq

/-- Loop body of `_get_dependencies` (_core.py 46-56) for one parameter. The
source binds `required, type = _get_optional_type(...)` (_core.py 50): the
first component of `_get_optional_type` is the IS-OPTIONAL flag of the
annotation, so the descriptor's `required` field is true for an optional
annotation and false for a plain one — inverted from the evident intent of
the name `required` and of its downstream use. -/
def paramDep (p : Param) : Dep :=
  { name := if p.keywordOnly then some p.name else none
    ty := p.ty
    required := p.isOptionalAnn }

/-- Function `_get_dependencies` (_core.py 27-58) over the constructor's
parameter list. -/
def getDependencies (ps : List Param) : List Dep := ps.map paramDep

/-- Membership test and subscript read of a Python dict (`k in d`, `d[k]`). -/
def lookupKey {α : Type} (k : Nat) : List (Nat × α) → Option α
  | [] => none
  | (k', v) :: rest => if k' = k then some v else lookupKey k rest

/-- Subscript write of a Python dict (`d[k] = v`): overwrite in place, or
append a new key. -/
def insertKey {α : Type} (k : Nat) (v : α) : List (Nat × α) → List (Nat × α)
  | [] => [(k, v)]
  | (k', v') :: rest => if k' = k then (k, v) :: rest else (k', v') :: insertKey k v rest

/-- States of `ApplicationState` (_core.py 61-77). -/
inductive ApplicationState where
  | UNKNOWN
  | STARTING
  | STARTED
  | STOPPING
  | STOPPED
deriving DecidableEq

/-- One raise site of the source; each constructor carries exactly the data the
source interpolates into the exception message. -/
inductive Err where
  /-- raise of "type must be provided for singleton instances" (_core.py 130) -/
  | typeRequiredForInstance
  /-- raise of "Type t must be a subclass of b" (_core.py 135) -/
  | notSubclassOfBase (t b : TypeId)
  /-- raise of "Type c is not a subclass of t" (_core.py 145); `c` is the
  runtime class of the offending class or instance argument -/
  | instanceNotOfType (c t : TypeId)
  /-- raise of "Unknown dependency: t" (_core.py 116); carries only the missing
  dependency type, as the source message does -/
  | unknownDependency (t : TypeId)
  /-- raise of "Transient already exists: t" (_core.py 183) -/
  | transientExists (t : TypeId)
  /-- raise of "Scoped already exists: t" (_core.py 203) -/
  | scopedExists (t : TypeId)
  /-- raise of "Singleton not found: t" (_core.py 240) -/
  | singletonNotFound (t : TypeId)
  /-- raise of "Transient not found: t" (_core.py 261) -/
  | transientNotFound (t : TypeId)
  /-- raise of "Scoped not found: t" (_core.py 283) -/
  | scopedNotFound (t : TypeId)
  /-- raise of "Service not found: t" (_core.py 312) -/
  | serviceNotFound (t : TypeId)
  /-- raise of RuntimeError "Application is already running" (_core.py 395) -/
  | alreadyRunning
  /-- raise of RuntimeError "Application is stopping" (_core.py 397) -/
  | isStopping
  /-- raise of RuntimeError "Application is not running" (_core.py 454) -/
  | notRunning
  /-- raise of RuntimeError "Application is already stopping" (_core.py 456) -/
  | alreadyStopping
  /-- raise of RuntimeError "Application is already stopped" (_core.py 458) -/
  | alreadyStopped
  /-- propagation of asyncio.TimeoutError out of asyncio.wait_for (_core.py 406) -/
  | timeoutError
  /-- propagation of the first exception raised by a service coroutine out of
  asyncio.gather, which is awaited without return_exceptions (_core.py 407, 467) -/
  | serviceError (e : Nat)
  /-- recursion budget exhausted (modelling artefact of the fuel parameter) -/
  | outOfFuel
deriving DecidableEq

/-- Type key of the class `Application` itself, used in the pre-registration
`{Application: self, type(self): self}` (_core.py 85). -/
def applicationTypeId : TypeId := 0

/-- Type key standing for `ServiceProto`, which _core.py imports from
._service but which is defined nowhere in the repository; only the `sub`
relation gives it meaning. -/
def serviceProtoTypeId : TypeId := 1

/-- State of an `Application` instance (_core.py 83-99): the four binding
registries, the scoped-instance store backing the `_contexts` ContextVar, the
allocation counter, and the four lifecycle event flags. `ctxVar` maps a context
id to the dict installed for it by `ContextVar.set` — the source never calls
`.set`, so it stays empty — and `ctxDefault` is the single default dict created
once in `__init__` and returned by `.get()` in every context without an
installed value. -/
structure App where
  singletons : List (TypeId × Obj)
  transients : List (TypeId × PyClass)
  scopedReg : List (TypeId × PyClass)
  ctxVar : List (Nat × List (TypeId × Obj))
  ctxDefault : List (TypeId × Obj)
  services : List (TypeId × Obj)
  nextId : Nat
  starting : Bool
  started : Bool
  stopping : Bool
  stopped : Bool
deriving DecidableEq

/-- Constructor `Application.__init__` (_core.py 83-99): the application object
itself (allocation id 0, runtime class `selfCls`) is pre-registered as a
singleton under both the `Application` key and its own runtime class; all
registries empty; only the `_stopped` event is set. -/
def App.init (selfCls : TypeId) : App where
  singletons := insertKey selfCls ⟨0, selfCls⟩ (insertKey applicationTypeId ⟨0, selfCls⟩ [])
  transients := []
  scopedReg := []
  ctxVar := []
  ctxDefault := []
  services := []
  nextId := 1
  starting := false
  started := false
  stopping := false
  stopped := true

/-- Property `Application.state` (_core.py 474-486): starting, then stopping,
then started, then stopped, else UNKNOWN. -/
def App.state (a : App) : ApplicationState :=
  if a.starting then .STARTING
  else if a.stopping then .STOPPING
  else if a.started then .STARTED
  else if a.stopped then .STOPPED
  else .UNKNOWN

/-- Outcome of the awaited fan-in inside `Application.start` (_core.py 405-408):
all service starts completed, the overall `asyncio.wait_for` timeout elapsed,
or some service coroutine raised and `asyncio.gather` propagated it. -/
inductive GatherOutcome where
  | ok
  | timedOut
  | raised (e : Nat)
deriving DecidableEq

/-- Coroutine `Application.start` (_core.py 376-413). Guards under the lock:
already starting or started, then stopping. Then `_starting.set()`, the awaited
fan-in (outcome `o`), `_starting.clear()` in the finally block, and only on
success `_stopped.clear(); _started.set()`. Returns the post-call state and the
exception propagated to the caller, if any. -/
def App.start (a : App) (o : GatherOutcome) : App × Option Err :=
  if a.starting || a.started then (a, some .alreadyRunning)
  else if a.stopping then (a, some .isStopping)
  else
    match o with
    | .ok => ({ a with starting := false, stopped := false, started := true }, none)
    | .timedOut => ({ a with starting := false }, some .timeoutError)
    | .raised e => ({ a with starting := false }, some (.serviceError e))

/-- Coroutine `Application.stop` (_core.py 442-472). Guards under the lock: not
started, then already stopping, then already stopped. Then `_stopping.set()`,
`await asyncio.gather(*coros)` — awaited without `return_exceptions=True`, so
the first service exception (`exc = some e`) propagates — `_stopping.clear()`
in the finally block, and only when the gather returned normally
`_started.clear(); _stopped.set()`. -/
def App.stop (a : App) (exc : Option Nat) : App × Option Err :=
  if !a.started then (a, some .notRunning)
  else if a.stopping then (a, some .alreadyStopping)
  else if a.stopped then (a, some .alreadyStopped)
  else
    match exc with
    | some e => ({ a with stopping := false }, some (.serviceError e))
    | none => ({ a with stopping := false, started := false, stopped := true }, none)

/-- Method `Application.get_singleton` (_core.py 230-243): pure dict lookup. -/
def App.getSingleton (a : App) (ty : TypeId) (required : Bool) : Except Err (Option Obj) :=
  match lookupKey ty a.singletons with
  | none => if required then .error (.singletonNotFound ty) else .ok none
  | some v => .ok (some v)

/-- Method `Application.get_service` (_core.py 300-315): pure dict lookup. -/
def App.getService (a : App) (ty : TypeId) (required : Bool) : Except Err (Option Obj) :=
  match lookupKey ty a.services with
  | none => if required then .error (.serviceNotFound ty) else .ok none
  | some v => .ok (some v)

/-- Expression `self._contexts.get()` (_core.py 286): the dict installed by
`ContextVar.set` for the current context if any, else the one shared default
dict created in `__init__`. The source never calls `.set`. -/
def App.ctxGet (a : App) (ctx : Nat) : List (TypeId × Obj) :=
  (lookupKey ctx a.ctxVar).getD a.ctxDefault

/-- Statement `context[type] = instance` (_core.py 290): a write through the
dict object `self._contexts.get()` returned — the context's own dict when one
was installed, else the shared default dict. -/
def App.ctxWrite (a : App) (ctx : Nat) (ty : TypeId) (v : Obj) : App :=
  match lookupKey ctx a.ctxVar with
  | some store => { a with ctxVar := insertKey ctx (insertKey ty v store) a.ctxVar }
  | none => { a with ctxDefault := insertKey ty v a.ctxDefault }

/-- Shape of `Application._create_instance` at a fixed recursion budget. -/
abbrev CreateFn := App → PyClass ⊕ Obj → Option TypeId → Option TypeId →
  Except Err (Obj × TypeId × App)

/-- Method `Application._create_instance` (_core.py 125-147) with the recursive
dependency resolution `rd` supplied by the caller (see `createInstance`).
Compute the key type (the class itself when omitted; an instance without an
explicit type raises), check the optional `base` bound, then for a class
resolve its constructor dependencies and allocate a fresh instance, for a ready
instance skip construction; finally the isinstance check against the key. -/
def createInstanceAux (sub : TypeId → TypeId → Bool)
    (rd : App → List Dep → Except Err (List (Option Obj) × List (String × Option Obj) × App))
    (a : App) (cls : PyClass ⊕ Obj) (tyArg : Option TypeId) (base : Option TypeId) :
    Except Err (Obj × TypeId × App) :=
  match (match tyArg, cls with
         | some t, _ => Except.ok t
         | none, .inl c => Except.ok c.cls
         | none, .inr _ => Except.error Err.typeRequiredForInstance) with
  | .error e => .error e
  | .ok ty =>
    match (match base with
           | some b =>
             if sub ty b then Except.ok () else Except.error (Err.notSubclassOfBase ty b)
           | none => Except.ok ()) with
    | .error e => .error e
    | .ok _ =>
      match cls with
      | .inl c =>
        match rd a c.deps with
        | .error e => .error e
        | .ok (_, _, a') =>
          if sub c.cls ty then .ok (⟨a'.nextId, c.cls⟩, ty, { a' with nextId := a'.nextId + 1 })
          else .error (.instanceNotOfType c.cls ty)
      | .inr o =>
        if sub o.cls ty then .ok (o, ty, a)
        else .error (.instanceNotOfType o.cls ty)

/-- Method `Application.get_transient` (_core.py 251-265) with
`_create_instance` supplied: absent key raises when required, else None;
present key constructs a fresh instance from the registered class. -/
def getTransientAux (ci : CreateFn) (a : App) (ty : TypeId) (required : Bool) :
    Except Err (Option Obj × App) :=
  match lookupKey ty a.transients with
  | none => if required then .error (.transientNotFound ty) else .ok (none, a)
  | some c =>
    match ci a (.inl c) (some ty) none with
    | .error e => .error e
    | .ok (inst, _, a') => .ok (some inst, a')

/-- Method `Application.get_scoped` (_core.py 273-292) with `_create_instance`
supplied: absent key raises when required, else None; otherwise read the
current context's dict, construct and cache on a miss, and return the dict
entry. -/
def getScopedAux (ctx : Nat) (ci : CreateFn) (a : App) (ty : TypeId) (required : Bool) :
    Except Err (Option Obj × App) :=
  match lookupKey ty a.scopedReg with
  | none => if required then .error (.scopedNotFound ty) else .ok (none, a)
  | some c =>
    match lookupKey ty (a.ctxGet ctx) with
    | some v => .ok (some v, a)
    | none =>
      match ci a (.inl c) (some ty) none with
      | .error e => .error e
      | .ok (inst, _, a') =>
        let a'' := a'.ctxWrite ctx ty inst
        .ok (lookupKey ty (a''.ctxGet ctx), a'')

/-- Loop body of `Application._resolve_dependencies` (_core.py 105-116):
consult singletons, then transients, then scoped, then services; an absent
required dependency raises, an absent optional one resolves to None. The
transient branch passes the registered class object itself as the lookup key
(`self.get_transient(self._transients[type], required=required)`,
_core.py 110), that is, its own type identity. -/
def resolveOneAux (ctx : Nat) (ci : CreateFn) (a : App) (ty : TypeId) (required : Bool) :
    Except Err (Option Obj × App) :=
  match lookupKey ty a.singletons with
  | some _ =>
    match a.getSingleton ty required with
    | .error e => .error e
    | .ok v => .ok (v, a)
  | none =>
    match lookupKey ty a.transients with
    | some c => getTransientAux ci a c.cls required
    | none =>
      match lookupKey ty a.scopedReg with
      | some _ => getScopedAux ctx ci a ty required
      | none =>
        match lookupKey ty a.services with
        | some _ =>
          match a.getService ty required with
          | .error e => .error e
          | .ok v => .ok (v, a)
        | none => if required then .error (.unknownDependency ty) else .ok (none, a)

/-- Loop of `Application._resolve_dependencies` (_core.py 101-123): resolve
each descriptor in order, appending positional values to the args list and
keyword-only ones to the kwargs mapping. -/
def resolveDepsAux (ro : App → TypeId → Bool → Except Err (Option Obj × App)) :
    App → List Dep → Except Err (List (Option Obj) × List (String × Option Obj) × App)
  | a, [] => .ok ([], [], a)
  | a, d :: rest =>
    match ro a d.ty d.required with
    | .error e => .error e
    | .ok (v, a') =>
      match resolveDepsAux ro a' rest with
      | .error e => .error e
      | .ok (args, kwargs, a'') =>
        match d.name with
        | none => .ok (v :: args, kwargs, a'')
        | some n => .ok (args, (n, v) :: kwargs, a'')

/-- Method `Application._create_instance` with recursion budget `fuel` on the
nesting depth of `_create_instance` calls; `ctx` is the ambient execution
context consulted by scoped resolution. -/
def createInstance (sub : TypeId → TypeId → Bool) (ctx : Nat) : Nat → CreateFn
  | 0 => createInstanceAux sub
      (resolveDepsAux (resolveOneAux ctx fun _ _ _ _ => .error .outOfFuel))
  | fuel + 1 => createInstanceAux sub
      (resolveDepsAux (resolveOneAux ctx (createInstance sub ctx fuel)))

/-- Method `Application.get_transient` (_core.py 251-265). -/
def getTransient (sub : TypeId → TypeId → Bool) (ctx fuel : Nat) (a : App) (ty : TypeId)
    (required : Bool) : Except Err (Option Obj × App) :=
  getTransientAux (createInstance sub ctx fuel) a ty required

/-- Method `Application.get_scoped` (_core.py 273-292); `ctx` is the current
logical execution context. -/
def getScoped (sub : TypeId → TypeId → Bool) (ctx fuel : Nat) (a : App) (ty : TypeId)
    (required : Bool) : Except Err (Option Obj × App) :=
  getScopedAux ctx (createInstance sub ctx fuel) a ty required

/-- Loop body of `Application._resolve_dependencies` for one descriptor type. -/
def resolveOne (sub : TypeId → TypeId → Bool) (ctx fuel : Nat) (a : App) (ty : TypeId)
    (required : Bool) : Except Err (Option Obj × App) :=
  resolveOneAux ctx (createInstance sub ctx fuel) a ty required

/-- Method `Application._resolve_dependencies` (_core.py 101-123). -/
def resolveDeps (sub : TypeId → TypeId → Bool) (ctx fuel : Nat) (a : App) (deps : List Dep) :
    Except Err (List (Option Obj) × List (String × Option Obj) × App) :=
  resolveDepsAux (resolveOne sub ctx fuel) a deps

/-- Method `Application.add_singleton` (_core.py 149-167): construct (or take
the ready instance), then insert into the singleton registry under the key
type, overwriting any previous binding for that key. -/
def addSingleton (sub : TypeId → TypeId → Bool) (ctx fuel : Nat) (a : App)
    (cls : PyClass ⊕ Obj) (tyArg : Option TypeId) : Except Err App :=
  match createInstance sub ctx fuel a cls tyArg none with
  | .error e => .error e
  | .ok (inst, ty, a') => .ok { a' with singletons := insertKey ty inst a'.singletons }

/-- Method `Application.add_transient` (_core.py 169-187): duplicate-key check
against the transient registry only, then a dependency-resolution dry run of
the class's constructor, then insert. -/
def addTransient (sub : TypeId → TypeId → Bool) (ctx fuel : Nat) (a : App) (cls : PyClass)
    (tyArg : Option TypeId) : Except Err App :=
  if (lookupKey (tyArg.getD cls.cls) a.transients).isSome then
    .error (.transientExists (tyArg.getD cls.cls))
  else
    match resolveDeps sub ctx fuel a cls.deps with
    | .error e => .error e
    | .ok (_, _, a') =>
      .ok { a' with transients := insertKey (tyArg.getD cls.cls) cls a'.transients }

/-- Method `Application.add_scoped` (_core.py 189-207): duplicate-key check
against the scoped registry only, then a dependency-resolution dry run, then
insert. -/
def addScoped (sub : TypeId → TypeId → Bool) (ctx fuel : Nat) (a : App) (cls : PyClass)
    (tyArg : Option TypeId) : Except Err App :=
  if (lookupKey (tyArg.getD cls.cls) a.scopedReg).isSome then
    .error (.scopedExists (tyArg.getD cls.cls))
  else
    match resolveDeps sub ctx fuel a cls.deps with
    | .error e => .error e
    | .ok (_, _, a') =>
      .ok { a' with scopedReg := insertKey (tyArg.getD cls.cls) cls a'.scopedReg }

/-- Method `Application.add_service` (_core.py 209-222): construct with base
bound `ServiceProto`, then insert into the service registry (the per-service
`_register` call mutates only the service object itself). -/
def addService (sub : TypeId → TypeId → Bool) (ctx fuel : Nat) (a : App)
    (cls : PyClass ⊕ Obj) (tyArg : Option TypeId) : Except Err App :=
  match createInstance sub ctx fuel a cls tyArg (some serviceProtoTypeId) with
  | .error e => .error e
  | .ok (inst, ty, a') => .ok { a' with services := insertKey ty inst a'.services }

/-- Concrete issubclass relation for closed examples: exact type equality
(issubclass is reflexive). -/
def subEq : TypeId → TypeId → Bool := fun x y => x == y

/-- State evolution along the resolution machinery: the allocation counter is
monotone, and the binding registries and the lifecycle flags are untouched
(only the scoped-instance store and the counter may change). -/
structure Evolves (a b : App) : Prop where
  nextId_le : a.nextId ≤ b.nextId
  singletons_eq : b.singletons = a.singletons
  transients_eq : b.transients = a.transients
  scopedReg_eq : b.scopedReg = a.scopedReg
  services_eq : b.services = a.services
  starting_eq : b.starting = a.starting
  started_eq : b.started = a.started
  stopping_eq : b.stopping = a.stopping
  stopped_eq : b.stopped = a.stopped

/-- Property of a create function: every success only evolves the state. -/
def CreatePreserves (ci : CreateFn) : Prop :=
  ∀ a cls tyArg base o ty a', ci a cls tyArg base = Except.ok (o, ty, a') → Evolves a a'

/-- Application states reachable through the public surface: construction,
registrations, lookups, and the lifecycle calls with any outcome of their
awaited fan-in. A failed lifecycle call yields the state recorded in the
returned pair; a failed resolution abandons partial allocations, which never
include a lifecycle-flag write (no resolver code touches the events), so
reachability continues from the pre-call state. `Application.run` is `start`
followed by a wait and possibly `stop`, so its effects are compositions of
these steps. -/
inductive Reachable : App → Prop where
  | init (selfCls : TypeId) : Reachable (App.init selfCls)
  | lifecycleStart {a : App} (o : GatherOutcome) : Reachable a → Reachable (App.start a o).1
  | lifecycleStop {a : App} (exc : Option Nat) : Reachable a → Reachable (App.stop a exc).1
  | regSingleton {a a' : App} {sub ctx fuel cls tyArg} : Reachable a →
      addSingleton sub ctx fuel a cls tyArg = .ok a' → Reachable a'
  | regTransient {a a' : App} {sub ctx fuel cls tyArg} : Reachable a →
      addTransient sub ctx fuel a cls tyArg = .ok a' → Reachable a'
  | regScoped {a a' : App} {sub ctx fuel cls tyArg} : Reachable a →
      addScoped sub ctx fuel a cls tyArg = .ok a' → Reachable a'
  | regService {a a' : App} {sub ctx fuel cls tyArg} : Reachable a →
      addService sub ctx fuel a cls tyArg = .ok a' → Reachable a'
  | lookupTransient {a a' : App} {sub ctx fuel ty r v} : Reachable a →
      getTransient sub ctx fuel a ty r = .ok (v, a') → Reachable a'
  | lookupScoped {a a' : App} {sub ctx fuel ty r v} : Reachable a →
      getScoped sub ctx fuel a ty r = .ok (v, a') → Reachable a'

theorem lookupKey_insertKey_self {α : Type} (k : Nat) (v : α) :
    ∀ l : List (Nat × α), lookupKey k (insertKey k v l) = some v
  | [] => by simp [insertKey, lookupKey]
  | (k', v') :: rest => by
    by_cases h : k' = k
    · simp [insertKey, lookupKey, h]
    · simp [insertKey, lookupKey, h, lookupKey_insertKey_self k v rest]

theorem insertKey_insertKey_same {α : Type} (k : Nat) (v1 v2 : α) :
    ∀ l : List (Nat × α), insertKey k v2 (insertKey k v1 l) = insertKey k v2 l
  | [] => by simp [insertKey]
  | (k', v') :: rest => by
    by_cases h : k' = k
    · simp [insertKey, h]
    · simp [insertKey, h, insertKey_insertKey_same k v1 v2 rest]

theorem Evolves.refl (a : App) : Evolves a a :=
  ⟨Nat.le_refl _, rfl, rfl, rfl, rfl, rfl, rfl, rfl, rfl⟩

theorem Evolves.trans {a b c : App} (h1 : Evolves a b) (h2 : Evolves b c) : Evolves a c :=
  ⟨Nat.le_trans h1.nextId_le h2.nextId_le,
   h2.singletons_eq.trans h1.singletons_eq, h2.transients_eq.trans h1.transients_eq,
   h2.scopedReg_eq.trans h1.scopedReg_eq, h2.services_eq.trans h1.services_eq,
   h2.starting_eq.trans h1.starting_eq, h2.started_eq.trans h1.started_eq,
   h2.stopping_eq.trans h1.stopping_eq, h2.stopped_eq.trans h1.stopped_eq⟩

theorem ctxWrite_evolves (a : App) (ctx : Nat) (ty : TypeId) (v : Obj) :
    Evolves a (a.ctxWrite ctx ty v) := by
  unfold App.ctxWrite
  cases lookupKey ctx a.ctxVar <;>
    exact ⟨Nat.le_refl _, rfl, rfl, rfl, rfl, rfl, rfl, rfl, rfl⟩

theorem ctxWrite_ctxGet (a : App) (ctx : Nat) (ty : TypeId) (v : Obj) :
    lookupKey ty ((a.ctxWrite ctx ty v).ctxGet ctx) = some v := by
  unfold App.ctxWrite App.ctxGet
  cases hE : lookupKey ctx a.ctxVar with
  | none => simp [hE, lookupKey_insertKey_self]
  | some store => simp [hE, lookupKey_insertKey_self]

theorem createInstanceAux_evolves {sub : TypeId → TypeId → Bool}
    {rd : App → List Dep → Except Err (List (Option Obj) × List (String × Option Obj) × App)}
    (hrd : ∀ a deps res, rd a deps = Except.ok res → Evolves a res.2.2)
    {a : App} {cls : PyClass ⊕ Obj} {tyArg base : Option TypeId} {o : Obj} {ty : TypeId}
    {a' : App} (h : createInstanceAux sub rd a cls tyArg base = .ok (o, ty, a')) :
    Evolves a a' := by
  unfold createInstanceAux at h
  split at h
  · simp at h
  · split at h
    · simp at h
    · split at h
      · rename_i c
        split at h
        · simp at h
        · rename_i res hE
          split at h
          · simp only [Except.ok.injEq, Prod.mk.injEq] at h
            obtain ⟨-, -, h3⟩ := h
            subst h3
            have h1 := hrd _ _ _ hE
            exact ⟨Nat.le_trans h1.nextId_le (Nat.le_succ _), h1.singletons_eq,
                   h1.transients_eq, h1.scopedReg_eq, h1.services_eq, h1.starting_eq,
                   h1.started_eq, h1.stopping_eq, h1.stopped_eq⟩
          · simp at h
      · split at h
        · simp only [Except.ok.injEq, Prod.mk.injEq] at h
          obtain ⟨-, -, h3⟩ := h
          subst h3
          exact Evolves.refl a
        · simp at h

theorem getTransientAux_evolves {ci : CreateFn} (hci : CreatePreserves ci)
    {a : App} {ty : TypeId} {r : Bool} {v : Option Obj} {a' : App}
    (h : getTransientAux ci a ty r = .ok (v, a')) : Evolves a a' := by
  unfold getTransientAux at h
  split at h
  · split at h
    · simp at h
    · simp only [Except.ok.injEq, Prod.mk.injEq] at h
      obtain ⟨-, h2⟩ := h
      subst h2
      exact Evolves.refl a
  · split at h
    · simp at h
    · rename_i inst ty2 a1 hE
      simp only [Except.ok.injEq, Prod.mk.injEq] at h
      obtain ⟨-, h2⟩ := h
      subst h2
      exact hci _ _ _ _ _ _ _ hE

theorem getScopedAux_evolves {ctx : Nat} {ci : CreateFn} (hci : CreatePreserves ci)
    {a : App} {ty : TypeId} {r : Bool} {v : Option Obj} {a' : App}
    (h : getScopedAux ctx ci a ty r = .ok (v, a')) : Evolves a a' := by
  unfold getScopedAux at h
  split at h
  · split at h
    · simp at h
    · simp only [Except.ok.injEq, Prod.mk.injEq] at h
      obtain ⟨-, h2⟩ := h
      subst h2
      exact Evolves.refl a
  · split at h
    · simp only [Except.ok.injEq, Prod.mk.injEq] at h
      obtain ⟨-, h2⟩ := h
      subst h2
      exact Evolves.refl a
    · split at h
      · simp at h
      · rename_i inst ty2 a1 hE
        simp only [Except.ok.injEq, Prod.mk.injEq] at h
        obtain ⟨-, h2⟩ := h
        subst h2
        exact Evolves.trans (hci _ _ _ _ _ _ _ hE) (ctxWrite_evolves a1 ctx ty inst)

theorem resolveOneAux_evolves {ctx : Nat} {ci : CreateFn} (hci : CreatePreserves ci)
    {a : App} {ty : TypeId} {r : Bool} {v : Option Obj} {a' : App}
    (h : resolveOneAux ctx ci a ty r = .ok (v, a')) : Evolves a a' := by
  unfold resolveOneAux at h
  split at h
  · split at h
    · simp at h
    · simp only [Except.ok.injEq, Prod.mk.injEq] at h
      obtain ⟨-, h2⟩ := h
      subst h2
      exact Evolves.refl a
  · split at h
    · exact getTransientAux_evolves hci h
    · split at h
      · exact getScopedAux_evolves hci h
      · split at h
        · split at h
          · simp at h
          · simp only [Except.ok.injEq, Prod.mk.injEq] at h
            obtain ⟨-, h2⟩ := h
            subst h2
            exact Evolves.refl a
        · split at h
          · simp at h
          · simp only [Except.ok.injEq, Prod.mk.injEq] at h
            obtain ⟨-, h2⟩ := h
            subst h2
            exact Evolves.refl a

theorem resolveDepsAux_evolves {ro : App → TypeId → Bool → Except Err (Option Obj × App)}
    (hro : ∀ a ty r v a', ro a ty r = Except.ok (v, a') → Evolves a a') {deps : List Dep} :
    ∀ {a : App} {res}, resolveDepsAux ro a deps = .ok res → Evolves a res.2.2 := by
  induction deps with
  | nil =>
    intro a res h
    unfold resolveDepsAux at h
    simp only [Except.ok.injEq] at h
    subst h
    exact Evolves.refl a
  | cons d rest ih =>
    intro a res h
    unfold resolveDepsAux at h
    split at h
    · simp at h
    · rename_i v a1 hE1
      split at h
      · simp at h
      · rename_i r2 hE2
        have e1 := hro _ _ _ _ _ hE1
        have e2 := ih hE2
        split at h <;>
          (simp only [Except.ok.injEq] at h; subst h; exact Evolves.trans e1 e2)

theorem deadCI_preserves : CreatePreserves (fun _ _ _ _ => Except.error Err.outOfFuel) := by
  intro a cls tyArg base o ty a' h
  simp at h

theorem createInstance_preserves (sub : TypeId → TypeId → Bool) (ctx : Nat) :
    ∀ fuel, CreatePreserves (createInstance sub ctx fuel) := by
  intro fuel
  induction fuel with
  | zero =>
    intro a cls tyArg base o ty a' h
    exact createInstanceAux_evolves
      (fun a d res hr => resolveDepsAux_evolves
        (fun a ty r v a' h1 => resolveOneAux_evolves deadCI_preserves h1) hr) h
  | succ f ihf =>
    intro a cls tyArg base o ty a' h
    exact createInstanceAux_evolves
      (fun a d res hr => resolveDepsAux_evolves
        (fun a ty r v a' h1 => resolveOneAux_evolves ihf h1) hr) h

theorem getTransient_evolves {sub : TypeId → TypeId → Bool} {ctx fuel : Nat} {a : App}
    {ty : TypeId} {r : Bool} {v : Option Obj} {a' : App}
    (h : getTransient sub ctx fuel a ty r = .ok (v, a')) : Evolves a a' :=
  getTransientAux_evolves (createInstance_preserves sub ctx fuel) h

theorem getScoped_evolves {sub : TypeId → TypeId → Bool} {ctx fuel : Nat} {a : App}
    {ty : TypeId} {r : Bool} {v : Option Obj} {a' : App}
    (h : getScoped sub ctx fuel a ty r = .ok (v, a')) : Evolves a a' :=
  getScopedAux_evolves (createInstance_preserves sub ctx fuel) h

theorem resolveDeps_evolves {sub : TypeId → TypeId → Bool} {ctx fuel : Nat} {a : App}
    {deps : List Dep} {res} (h : resolveDeps sub ctx fuel a deps = .ok res) :
    Evolves a res.2.2 :=
  resolveDepsAux_evolves
    (fun a ty r v a' h1 =>
      resolveOneAux_evolves (createInstance_preserves sub ctx fuel) h1) h

theorem createInstanceAux_inl_ids {sub : TypeId → TypeId → Bool}
    {rd : App → List Dep → Except Err (List (Option Obj) × List (String × Option Obj) × App)}
    (hrd : ∀ a deps res, rd a deps = Except.ok res → Evolves a res.2.2)
    {a : App} {c : PyClass} {tyArg base : Option TypeId} {o : Obj} {ty : TypeId} {a' : App}
    (h : createInstanceAux sub rd a (.inl c) tyArg base = .ok (o, ty, a')) :
    a.nextId ≤ o.id ∧ a'.nextId = o.id + 1 := by
  unfold createInstanceAux at h
  split at h
  · simp at h
  · split at h
    · simp at h
    · split at h
      · rename_i c2 heq
        split at h
        · simp at h
        · rename_i res hE
          split at h
          · simp only [Except.ok.injEq, Prod.mk.injEq] at h
            obtain ⟨h1, -, h3⟩ := h
            subst h3
            subst h1
            have e := hrd _ _ _ hE
            exact ⟨e.nextId_le, rfl⟩
          · simp at h
      · rename_i ob heq
        exact absurd heq (by simp)

theorem createInstance_inl_ids {sub : TypeId → TypeId → Bool} {ctx fuel : Nat}
    {a : App} {c : PyClass} {tyArg base : Option TypeId} {o : Obj} {ty : TypeId} {a' : App}
    (h : createInstance sub ctx fuel a (.inl c) tyArg base = .ok (o, ty, a')) :
    a.nextId ≤ o.id ∧ a'.nextId = o.id + 1 := by
  cases fuel with
  | zero =>
    exact createInstanceAux_inl_ids
      (fun a d res hr => resolveDepsAux_evolves
        (fun a ty r v a' h1 => resolveOneAux_evolves deadCI_preserves h1) hr) h
  | succ f =>
    exact createInstanceAux_inl_ids
      (fun a d res hr => resolveDepsAux_evolves
        (fun a ty r v a' h1 =>
          resolveOneAux_evolves (createInstance_preserves sub ctx f) h1) hr) h

theorem getTransient_some_ids {sub : TypeId → TypeId → Bool} {ctx fuel : Nat} {a : App}
    {ty : TypeId} {r : Bool} {o : Obj} {a' : App}
    (h : getTransient sub ctx fuel a ty r = .ok (some o, a')) :
    a.nextId ≤ o.id ∧ o.id < a'.nextId := by
  unfold getTransient getTransientAux at h
  split at h
  · split at h
    · simp at h
    · simp at h
  · split at h
    · simp at h
    · rename_i inst ty2 a1 hE
      simp only [Except.ok.injEq, Prod.mk.injEq, Option.some.injEq] at h
      obtain ⟨h1, h2⟩ := h
      subst h1
      subst h2
      obtain ⟨hb, he⟩ := createInstance_inl_ids hE
      omega

theorem getScoped_some_post {sub : TypeId → TypeId → Bool} {ctx fuel : Nat} {a : App}
    {ty : TypeId} {r : Bool} {o : Obj} {a' : App}
    (h : getScoped sub ctx fuel a ty r = .ok (some o, a')) :
    (∃ c, lookupKey ty a'.scopedReg = some c) ∧ lookupKey ty (a'.ctxGet ctx) = some o := by
  unfold getScoped getScopedAux at h
  split at h
  · split at h
    · simp at h
    · simp at h
  · rename_i c hc
    split at h
    · rename_i v hv
      simp only [Except.ok.injEq, Prod.mk.injEq, Option.some.injEq] at h
      obtain ⟨h1, h2⟩ := h
      subst h1
      subst h2
      exact ⟨⟨c, hc⟩, hv⟩
    · split at h
      · simp at h
      · rename_i inst ty2 a1 hE
        have hwr := ctxWrite_ctxGet a1 ctx ty inst
        simp only [hwr, Except.ok.injEq, Prod.mk.injEq, Option.some.injEq] at h
        obtain ⟨h1, h2⟩ := h
        subst h1
        subst h2
        have e := createInstance_preserves sub ctx fuel _ _ _ _ _ _ _ hE
        refine ⟨⟨c, ?_⟩, hwr⟩
        have : (a1.ctxWrite ctx ty inst).scopedReg = a1.scopedReg := by
          unfold App.ctxWrite
          cases lookupKey ctx a1.ctxVar <;> rfl
        rw [this, e.scopedReg_eq, hc]

theorem getScoped_twice {sub sub2 : TypeId → TypeId → Bool} {ctx fuel fuel2 : Nat}
    {a : App} {ty : TypeId} {r r2 : Bool} {o : Obj} {a' : App}
    (h : getScoped sub ctx fuel a ty r = .ok (some o, a')) :
    getScoped sub2 ctx fuel2 a' ty r2 = .ok (some o, a') := by
  obtain ⟨⟨c, hc⟩, hstore⟩ := getScoped_some_post h
  unfold getScoped getScopedAux
  simp [hc, hstore]

theorem start_flags_inv {a : App} (o : GatherOutcome)
    (h : a.started = true ∨ a.stopped = true) :
    (App.start a o).1.started = true ∨ (App.start a o).1.stopped = true := by
  unfold App.start
  split
  · exact h
  · split
    · exact h
    · rename_i h1 h2
      simp only [Bool.or_eq_true, not_or, Bool.not_eq_true] at h1
      cases o with
      | ok => exact Or.inl rfl
      | timedOut =>
        rcases h with hs | hs
        · rw [h1.2] at hs; exact absurd hs (by simp)
        · exact Or.inr hs
      | raised e =>
        rcases h with hs | hs
        · rw [h1.2] at hs; exact absurd hs (by simp)
        · exact Or.inr hs

theorem stop_flags_inv {a : App} (exc : Option Nat)
    (h : a.started = true ∨ a.stopped = true) :
    (App.stop a exc).1.started = true ∨ (App.stop a exc).1.stopped = true := by
  unfold App.stop
  split
  · exact h
  · split
    · exact h
    · split
      · exact h
      · rename_i h1 h2 h3
        have hs : a.started = true := by
          revert h1
          cases a.started <;> simp
        cases exc with
        | some e => exact Or.inl hs
        | none => exact Or.inr rfl

theorem addSingleton_flags {sub : TypeId → TypeId → Bool} {ctx fuel : Nat} {a : App}
    {cls : PyClass ⊕ Obj} {tyArg : Option TypeId} {a' : App}
    (h : addSingleton sub ctx fuel a cls tyArg = .ok a') :
    a'.started = a.started ∧ a'.stopped = a.stopped := by
  unfold addSingleton at h
  split at h
  · simp at h
  · rename_i inst ty a1 hE
    simp only [Except.ok.injEq] at h
    subst h
    have e := createInstance_preserves sub ctx fuel _ _ _ _ _ _ _ hE
    exact ⟨e.started_eq, e.stopped_eq⟩

theorem addTransient_flags {sub : TypeId → TypeId → Bool} {ctx fuel : Nat} {a : App}
    {cls : PyClass} {tyArg : Option TypeId} {a' : App}
    (h : addTransient sub ctx fuel a cls tyArg = .ok a') :
    a'.started = a.started ∧ a'.stopped = a.stopped := by
  unfold addTransient at h
  split at h
  · simp at h
  · split at h
    · simp at h
    · rename_i res hE
      simp only [Except.ok.injEq] at h
      subst h
      have e := resolveDeps_evolves hE
      exact ⟨e.started_eq, e.stopped_eq⟩

theorem addScoped_flags {sub : TypeId → TypeId → Bool} {ctx fuel : Nat} {a : App}
    {cls : PyClass} {tyArg : Option TypeId} {a' : App}
    (h : addScoped sub ctx fuel a cls tyArg = .ok a') :
    a'.started = a.started ∧ a'.stopped = a.stopped := by
  unfold addScoped at h
  split at h
  · simp at h
  · split at h
    · simp at h
    · rename_i res hE
      simp only [Except.ok.injEq] at h
      subst h
      have e := resolveDeps_evolves hE
      exact ⟨e.started_eq, e.stopped_eq⟩

theorem addService_flags {sub : TypeId → TypeId → Bool} {ctx fuel : Nat} {a : App}
    {cls : PyClass ⊕ Obj} {tyArg : Option TypeId} {a' : App}
    (h : addService sub ctx fuel a cls tyArg = .ok a') :
    a'.started = a.started ∧ a'.stopped = a.stopped := by
  unfold addService at h
  split at h
  · simp at h
  · rename_i inst ty a1 hE
    simp only [Except.ok.injEq] at h
    subst h
    have e := createInstance_preserves sub ctx fuel _ _ _ _ _ _ _ hE
    exact ⟨e.started_eq, e.stopped_eq⟩

theorem reachable_flags {a : App} (h : Reachable a) :
    a.started = true ∨ a.stopped = true := by
  induction h with
  | init selfCls => exact Or.inr rfl
  | lifecycleStart o _ ih => exact start_flags_inv o ih
  | lifecycleStop exc _ ih => exact stop_flags_inv exc ih
  | regSingleton _ hok ih =>
    obtain ⟨h1, h2⟩ := addSingleton_flags hok
    rw [h1, h2]; exact ih
  | regTransient _ hok ih =>
    obtain ⟨h1, h2⟩ := addTransient_flags hok
    rw [h1, h2]; exact ih
  | regScoped _ hok ih =>
    obtain ⟨h1, h2⟩ := addScoped_flags hok
    rw [h1, h2]; exact ih
  | regService _ hok ih =>
    obtain ⟨h1, h2⟩ := addService_flags hok
    rw [h1, h2]; exact ih
  | lookupTransient _ hok ih =>
    have e := getTransient_evolves hok
    rw [e.started_eq, e.stopped_eq]; exact ih
  | lookupScoped _ hok ih =>
    have e := getScoped_evolves hok
    rw [e.started_eq, e.stopped_eq]; exact ih

theorem addSingleton_ready_instance {sub : TypeId → TypeId → Bool} {ctx fuel : Nat}
    {a : App} {o : Obj} {t : TypeId} (h : sub o.cls t = true) :
    addSingleton sub ctx fuel a (.inr o) (some t) =
      .ok { a with singletons := insertKey t o a.singletons } := by
  cases fuel <;> (unfold addSingleton createInstance createInstanceAux; simp [h])

/-- C1: the claim says stop() discards every exception raised by an individual
service's stop and always reaches STOPPED, as the stop() docstring also states.
The code awaits asyncio.gather without return_exceptions=True (_core.py 467),
so the first service exception propagates out of stop(), skipping
_started.clear() and _stopped.set(): on an Application whose started flag is
set, a raising service leaves state STARTED and the stopped event clear. -/
theorem c1_stop_exception_propagates :
    (App.stop (App.start (App.init 2) .ok).1 (some 7)).2 = some (.serviceError 7) ∧
    (App.stop (App.start (App.init 2) .ok).1 (some 7)).1.state = .STARTED ∧
    (App.stop (App.start (App.init 2) .ok).1 (some 7)).1.stopped = false :=
  ⟨rfl, rfl, rfl⟩

/-- C2: the claim says two get_scoped lookups of one type from two distinct
logical execution contexts yield two distinct instances. The `_contexts`
ContextVar is created with a single mutable default dict and the source never
calls `.set`, so every context reads and writes that one shared dict: after
registering a scoped class (type 3, no dependencies) on a fresh Application,
context 0 and the distinct context 1 both receive the very same instance. -/
theorem c2_contexts_share_scoped_instance :
    ((addScoped subEq 0 9 (App.init 2) ⟨3, []⟩ none).bind (fun a1 =>
      (getScoped subEq 0 9 a1 3 true).bind (fun p =>
      (getScoped subEq 1 9 p.2 3 true).map (fun q => (p.1, q.1))))) =
      .ok (some ⟨1, 3⟩, some ⟨1, 3⟩) := rfl

/-- C3 counterexample: the claim says a second singleton registration under the
same key accumulates into a 2-element list holding both instances. In the code
`self._singletons[type] = instance` overwrites: after registering instance 100
and then instance 101 under key 5, the registry holds exactly one value for
key 5 — the second instance — and the first instance occurs nowhere. -/
theorem c3_no_accumulation :
    ((addSingleton subEq 0 1 (App.init 2) (.inr ⟨100, 5⟩) (some 5)).bind (fun a1 =>
      addSingleton subEq 0 1 a1 (.inr ⟨101, 5⟩) (some 5))).map
        (fun a2 => ((a2.singletons.filter (fun p => p.1 == 5)).map Prod.snd,
                    (a2.singletons.map Prod.snd).contains ⟨100, 5⟩)) =
      .ok ([⟨101, 5⟩], false) := rfl

/-- C3 (amended): registering a second singleton under an already-used key
replaces the first binding rather than accumulating: after the first
registration the key resolves to the first instance, after the second it
resolves to the second instance only, and the resulting registry equals the one
obtained by inserting the second instance directly — the first instance is no
longer observable. -/
theorem c3_singleton_overwrite (sub : TypeId → TypeId → Bool) (ctx fuel : Nat) (a : App)
    (o1 o2 : Obj) (t : TypeId) (h1 : sub o1.cls t = true) (h2 : sub o2.cls t = true) :
    addSingleton sub ctx fuel a (.inr o1) (some t) =
      .ok { a with singletons := insertKey t o1 a.singletons } ∧
    lookupKey t (insertKey t o1 a.singletons) = some o1 ∧
    addSingleton sub ctx fuel { a with singletons := insertKey t o1 a.singletons }
        (.inr o2) (some t) =
      .ok { a with singletons := insertKey t o2 (insertKey t o1 a.singletons) } ∧
    lookupKey t (insertKey t o2 (insertKey t o1 a.singletons)) = some o2 ∧
    insertKey t o2 (insertKey t o1 a.singletons) = insertKey t o2 a.singletons :=
  ⟨addSingleton_ready_instance h1, lookupKey_insertKey_self t o1 _,
   addSingleton_ready_instance h2, lookupKey_insertKey_self t o2 _,
   insertKey_insertKey_same t o1 o2 _⟩

/-- Witness for C3 at concrete inputs: instances 100 and 101, both of runtime
class 5, registered under key 5 on a fresh Application. -/
theorem c3_singleton_overwrite_witness :
    addSingleton subEq 0 1 (App.init 2) (.inr ⟨100, 5⟩) (some 5) =
      .ok { App.init 2 with singletons := insertKey 5 ⟨100, 5⟩ (App.init 2).singletons } ∧
    lookupKey 5 (insertKey 5 ⟨100, 5⟩ (App.init 2).singletons) = some ⟨100, 5⟩ ∧
    addSingleton subEq 0 1
        { App.init 2 with singletons := insertKey 5 ⟨100, 5⟩ (App.init 2).singletons }
        (.inr ⟨101, 5⟩) (some 5) =
      .ok { App.init 2 with
            singletons := insertKey 5 ⟨101, 5⟩ (insertKey 5 ⟨100, 5⟩ (App.init 2).singletons) } ∧
    lookupKey 5 (insertKey 5 ⟨101, 5⟩ (insertKey 5 ⟨100, 5⟩ (App.init 2).singletons)) =
      some ⟨101, 5⟩ ∧
    insertKey 5 ⟨101, 5⟩ (insertKey 5 ⟨100, 5⟩ (App.init 2).singletons) =
      insertKey 5 ⟨101, 5⟩ (App.init 2).singletons :=
  c3_singleton_overwrite subEq 0 1 (App.init 2) ⟨100, 5⟩ ⟨101, 5⟩ 5 rfl rfl

/-- C4: resolving one type key twice through a transient binding yields two
distinct instances (fresh allocation per lookup), twice through a singleton
binding yields the identical stored instance, and twice through a scoped
binding within one context yields the identical instance and leaves the state
unchanged on the second lookup. -/
theorem c4_lifetime_semantics (sub : TypeId → TypeId → Bool) (ctx fuel fuel2 : Nat)
    (a : App) (ty : TypeId) (r r2 : Bool) :
    (∀ o1 a1 o2 a2, getTransient sub ctx fuel a ty r = .ok (some o1, a1) →
      getTransient sub ctx fuel2 a1 ty r2 = .ok (some o2, a2) → o1 ≠ o2) ∧
    (∀ o1 o2, a.getSingleton ty r = .ok (some o1) → a.getSingleton ty r2 = .ok (some o2) →
      o1 = o2) ∧
    (∀ o1 a1, getScoped sub ctx fuel a ty r = .ok (some o1, a1) →
      getScoped sub ctx fuel2 a1 ty r2 = .ok (some o1, a1)) := by
  refine ⟨?_, ?_, ?_⟩
  · intro o1 a1 o2 a2 h1 h2 hEq
    obtain ⟨hb1, ha1⟩ := getTransient_some_ids h1
    obtain ⟨hb2, ha2⟩ := getTransient_some_ids h2
    have hid : o1.id = o2.id := by rw [hEq]
    omega
  · intro o1 o2 h1 h2
    unfold App.getSingleton at h1 h2
    cases hE : lookupKey ty a.singletons with
    | none =>
      rw [hE] at h1
      cases r <;> simp at h1
    | some v =>
      rw [hE] at h1 h2
      simp only [Except.ok.injEq, Option.some.injEq] at h1 h2
      rw [← h1, ← h2]
  · intro o1 a1 h1
    exact getScoped_twice h1

/-- Witness for C4 on an Application holding singleton 5, transient 4 and
scoped 6 (classes without dependencies): transient lookups allocate ids 1 then
2; the singleton resolves to the stored instance both times; the scoped lookup
returns the cached instance again with the state unchanged. -/
theorem c4_lifetime_semantics_witness :
    ((⟨1, 4⟩ : Obj) ≠ ⟨2, 4⟩) ∧ ((⟨0, 5⟩ : Obj) = ⟨0, 5⟩) ∧
    getScoped subEq 0 9
        (⟨[(5, ⟨0, 5⟩)], [(4, ⟨4, []⟩)], [(6, ⟨6, []⟩)], [], [(6, ⟨1, 6⟩)], [], 2,
          false, false, false, true⟩ : App) 6 true =
      .ok (some ⟨1, 6⟩,
        (⟨[(5, ⟨0, 5⟩)], [(4, ⟨4, []⟩)], [(6, ⟨6, []⟩)], [], [(6, ⟨1, 6⟩)], [], 2,
          false, false, false, true⟩ : App)) :=
  ⟨(c4_lifetime_semantics subEq 0 9 9
      (⟨[(5, ⟨0, 5⟩)], [(4, ⟨4, []⟩)], [(6, ⟨6, []⟩)], [], [], [], 1,
        false, false, false, true⟩ : App) 4 true true).1
      ⟨1, 4⟩
      (⟨[(5, ⟨0, 5⟩)], [(4, ⟨4, []⟩)], [(6, ⟨6, []⟩)], [], [], [], 2,
        false, false, false, true⟩ : App)
      ⟨2, 4⟩
      (⟨[(5, ⟨0, 5⟩)], [(4, ⟨4, []⟩)], [(6, ⟨6, []⟩)], [], [], [], 3,
        false, false, false, true⟩ : App)
      rfl rfl,
   (c4_lifetime_semantics subEq 0 9 9
      (⟨[(5, ⟨0, 5⟩)], [(4, ⟨4, []⟩)], [(6, ⟨6, []⟩)], [], [], [], 1,
        false, false, false, true⟩ : App) 5 true true).2.1 ⟨0, 5⟩ ⟨0, 5⟩ rfl rfl,
   (c4_lifetime_semantics subEq 0 9 9
      (⟨[(5, ⟨0, 5⟩)], [(4, ⟨4, []⟩)], [(6, ⟨6, []⟩)], [], [], [], 1,
        false, false, false, true⟩ : App) 6 true true).2.2
      ⟨1, 6⟩
      (⟨[(5, ⟨0, 5⟩)], [(4, ⟨4, []⟩)], [(6, ⟨6, []⟩)], [], [(6, ⟨1, 6⟩)], [], 2,
        false, false, false, true⟩ : App) rfl⟩

/-- C5: a second start() without an intervening stop() fails on the guard with
the already-running error and leaves the state exactly as the first call left
it, and stop() on an Application whose started flag is clear (as after
construction, before any start) fails with the not-running error and leaves
the state unchanged. -/
theorem c5_lifecycle_guards (a : App) (o o2 : GatherOutcome) (exc : Option Nat) :
    ((App.start a o).2 = none →
      App.start (App.start a o).1 o2 = ((App.start a o).1, some .alreadyRunning)) ∧
    (a.started = false → App.stop a exc = (a, some .notRunning)) := by
  constructor
  · intro h
    unfold App.start at h ⊢
    split at h
    · simp at h
    · split at h
      · simp at h
      · rename_i h1 h2
        cases o with
        | ok => simp [h1, h2]
        | timedOut => simp at h
        | raised e => simp at h
  · intro h
    unfold App.stop
    simp [h]

/-- Witness for C5 on a fresh Application: start succeeds once, a second start
fails with the already-running error, and stop before any start fails with the
not-running error. -/
theorem c5_lifecycle_guards_witness :
    App.start (App.start (App.init 2) .ok).1 .ok =
      ((App.start (App.init 2) .ok).1, some .alreadyRunning) ∧
    App.stop (App.init 2) none = (App.init 2, some .notRunning) :=
  ⟨(c5_lifecycle_guards (App.init 2) .ok .ok none).1 rfl,
   (c5_lifecycle_guards (App.init 2) .ok .ok none).2 rfl⟩

/-- C6 counterexample: the claim says registering one key as transient and then
as scoped raises. add_transient checks only the transient registry and
add_scoped only the scoped registry, so registering class 4 as transient and
then as scoped on a fresh Application succeeds, leaving the key bound in both
factory categories. -/
theorem c6_cross_category_allowed :
    ((addTransient subEq 0 9 (App.init 2) ⟨4, []⟩ none).bind (fun a1 =>
      addScoped subEq 0 9 a1 ⟨4, []⟩ none)).map
        (fun a2 => ((lookupKey 4 a2.transients).isSome, (lookupKey 4 a2.scopedReg).isSome)) =
      .ok (true, true) := rfl

/-- C6 (amended): registering a key as transient twice raises the
binding-already-exists error for transients, registering it as scoped twice
raises the corresponding scoped error, but the two categories are checked
independently: add_scoped succeeds whenever its own registry lacks the key and
the dependency dry run succeeds, regardless of the transient registry. -/
theorem c6_duplicate_keys (sub : TypeId → TypeId → Bool) (ctx fuel : Nat) (a : App)
    (c : PyClass) (t : TypeId) :
    ((lookupKey t a.transients).isSome = true →
      addTransient sub ctx fuel a c (some t) = .error (.transientExists t)) ∧
    ((lookupKey t a.scopedReg).isSome = true →
      addScoped sub ctx fuel a c (some t) = .error (.scopedExists t)) ∧
    (∀ res, lookupKey t a.scopedReg = none →
      resolveDeps sub ctx fuel a c.deps = .ok res →
      addScoped sub ctx fuel a c (some t) =
        .ok { res.2.2 with scopedReg := insertKey t c res.2.2.scopedReg }) := by
  refine ⟨?_, ?_, ?_⟩
  · intro h
    unfold addTransient
    simp [h]
  · intro h
    unfold addScoped
    simp [h]
  · intro res h1 h2
    unfold addScoped
    simp [h1, h2]

/-- Witness for C6: duplicate same-category registrations of key 4 fail on an
Application already holding key 4 in both factory registries, while a scoped
registration of key 4 on a fresh Application succeeds. -/
theorem c6_duplicate_keys_witness :
    addTransient subEq 0 9
        (⟨[], [(4, ⟨4, []⟩)], [(4, ⟨4, []⟩)], [], [], [], 1, false, false, false, true⟩ : App)
        ⟨4, []⟩ (some 4) = .error (.transientExists 4) ∧
    addScoped subEq 0 9
        (⟨[], [(4, ⟨4, []⟩)], [(4, ⟨4, []⟩)], [], [], [], 1, false, false, false, true⟩ : App)
        ⟨4, []⟩ (some 4) = .error (.scopedExists 4) ∧
    addScoped subEq 0 9 (App.init 2) ⟨4, []⟩ (some 4) =
      .ok { App.init 2 with scopedReg := insertKey 4 ⟨4, []⟩ (App.init 2).scopedReg } :=
  ⟨(c6_duplicate_keys subEq 0 9
      (⟨[], [(4, ⟨4, []⟩)], [(4, ⟨4, []⟩)], [], [], [], 1, false, false, false, true⟩ : App)
      ⟨4, []⟩ 4).1 rfl,
   (c6_duplicate_keys subEq 0 9
      (⟨[], [(4, ⟨4, []⟩)], [(4, ⟨4, []⟩)], [], [], [], 1, false, false, false, true⟩ : App)
      ⟨4, []⟩ 4).2.1 rfl,
   (c6_duplicate_keys subEq 0 9 (App.init 2) ⟨4, []⟩ 4).2.2 ([], [], App.init 2) rfl rfl⟩

/-- C7: the claim says a required dependency missing from every binding
category raises an error naming the dependant and the missing type, and an
optional one resolves to null. The code has the polarity inverted:
_core.py 50 binds the is-optional flag returned by `_get_optional_type` to
`required`, so a plain-annotated — genuinely required — parameter of the
unregistered type 9 yields a descriptor with required false, and constructing
its class on a fresh Application SUCCEEDS with None injected for the missing
dependency, while an Optional-annotated parameter of type 9 yields required
true and construction raises the unknown-dependency error — the opposite of
the claim; moreover that error interpolates only the missing type
(`Unknown dependency: 9`, _core.py 116), never the declaring class. -/
theorem c7_required_optional_inverted :
    (paramDep ⟨"dep", false, false, 9⟩).required = false ∧
    (paramDep ⟨"dep", false, true, 9⟩).required = true ∧
    resolveDeps subEq 0 9 (App.init 2) (getDependencies [⟨"dep", false, false, 9⟩]) =
      .ok ([none], [], App.init 2) ∧
    createInstance subEq 0 9 (App.init 2)
        (.inl ⟨5, getDependencies [⟨"dep", false, false, 9⟩]⟩) none none =
      .ok (⟨1, 5⟩, 5, { App.init 2 with nextId := 2 }) ∧
    createInstance subEq 0 9 (App.init 2)
        (.inl ⟨5, getDependencies [⟨"dep", false, true, 9⟩]⟩) none none =
      .error (.unknownDependency 9) :=
  ⟨rfl, rfl, rfl, rfl, rfl⟩

/-- C8: when the awaited fan-in of start() times out on an Application whose
guards pass, start raises the timeout error, the STARTING flag is cleared by
the finally block, the started flag is never set, the resulting state is
neither STARTED nor STARTING, and a subsequent start() passes the guards and
can succeed — the container is restartable. -/
theorem c8_start_timeout (a : App)
    (h1 : a.starting = false) (h2 : a.started = false) (h3 : a.stopping = false) :
    App.start a .timedOut = ({ a with starting := false }, some .timeoutError) ∧
    (App.start a .timedOut).1.state ≠ .STARTED ∧
    (App.start a .timedOut).1.state ≠ .STARTING ∧
    (App.start a .timedOut).1.starting = false ∧
    (App.start a .timedOut).1.started = false ∧
    (App.start (App.start a .timedOut).1 .ok).2 = none := by
  unfold App.start App.state
  cases h4 : a.stopped <;> simp [h1, h2, h3, h4]

/-- Witness for C8 on a fresh Application. -/
theorem c8_start_timeout_witness :
    App.start (App.init 2) .timedOut =
      ({ App.init 2 with starting := false }, some .timeoutError) ∧
    (App.start (App.init 2) .timedOut).1.state ≠ .STARTED ∧
    (App.start (App.init 2) .timedOut).1.state ≠ .STARTING ∧
    (App.start (App.init 2) .timedOut).1.starting = false ∧
    (App.start (App.init 2) .timedOut).1.started = false ∧
    (App.start (App.start (App.init 2) .timedOut).1 .ok).2 = none :=
  c8_start_timeout (App.init 2) rfl rfl rfl

/-- C9: a freshly constructed Application reads state STOPPED, and on every
state reachable through the public surface — including after failed starts and
failed stops — at least the started or the stopped flag is set, so the state
property never returns UNKNOWN. -/
theorem c9_state_never_unknown :
    (∀ selfCls : TypeId, (App.init selfCls).state = .STOPPED) ∧
    (∀ a : App, Reachable a → a.state ≠ .UNKNOWN) := by
  constructor
  · intro selfCls
    rfl
  · intro a h hU
    have hf := reachable_flags h
    unfold App.state at hU
    split at hU
    · exact absurd hU (by decide)
    · split at hU
      · exact absurd hU (by decide)
      · split at hU
        · exact absurd hU (by decide)
        · split at hU
          · exact absurd hU (by decide)
          · rename_i hx1 hx2 hx3 hx4
            rcases hf with hs | hs
            · exact hx3 hs
            · exact hx4 hs

/-- Witness for C9: a fresh Application and one reached through a timed-out
start. -/
theorem c9_state_never_unknown_witness :
    (App.init 2).state = .STOPPED ∧
    (App.start (App.init 2) .timedOut).1.state ≠ .UNKNOWN :=
  ⟨c9_state_never_unknown.1 2,
   c9_state_never_unknown.2 _ (Reachable.lifecycleStart .timedOut (Reachable.init 2))⟩

/-- C10: a freshly constructed Application pre-registers itself as a singleton
under both the Application base key and its runtime class, so get_singleton on
either key returns the container object itself, and a constructor dependency
declared with the Application type resolves to the container through the
singleton branch without any explicit registration. -/
theorem c10_container_self_registration (selfCls : TypeId) (r : Bool)
    (sub : TypeId → TypeId → Bool) (ctx fuel : Nat) (required : Bool) :
    (App.init selfCls).getSingleton applicationTypeId r = .ok (some ⟨0, selfCls⟩) ∧
    (App.init selfCls).getSingleton selfCls r = .ok (some ⟨0, selfCls⟩) ∧
    resolveDeps sub ctx fuel (App.init selfCls) [⟨none, applicationTypeId, required⟩] =
      .ok ([some ⟨0, selfCls⟩], [], App.init selfCls) := by
  have hl0 : lookupKey applicationTypeId (App.init selfCls).singletons = some ⟨0, selfCls⟩ := by
    unfold App.init applicationTypeId
    by_cases hs : selfCls = 0
    · subst hs
      simp [insertKey, lookupKey]
    · simp [insertKey, lookupKey, Ne.symm hs]
  have hls : lookupKey selfCls (App.init selfCls).singletons = some ⟨0, selfCls⟩ := by
    unfold App.init applicationTypeId
    by_cases hs : selfCls = 0
    · subst hs
      simp [insertKey, lookupKey]
    · simp [insertKey, lookupKey, Ne.symm hs]
  refine ⟨?_, ?_, ?_⟩
  · unfold App.getSingleton
    rw [hl0]
  · unfold App.getSingleton
    rw [hls]
  · unfold resolveDeps resolveOne
    simp [resolveDepsAux, resolveOneAux, App.getSingleton, hl0]

end Malamar
